import Mathlib

/-!
Verification of the stock-movement reconciliation and reporting core of the
Hexa-Stock inventory manager (`gestor_estoque.py`).  The Python source is
shallowly embedded: reads and writes against the remote spreadsheet are made
explicit as value-level traces, text fields are `String`, numeric cells are
`Int`, and the Python coercion helpers (`int(...)`, `str.isdigit`,
`pd.to_numeric` with errors=coerce) are modelled by executable Lean functions.
-/

namespace GestorEstoque

/-! ### Python string/number primitives -/

/-- Whitespace characters recognised by Python `str.strip` (restricted to
the ASCII ones that can occur in the text fields of this program). -/
def isPySpace (c : Char) : Bool :=
  c = ' ' ∨ c = '\t' ∨ c = '\n' ∨ c = '\r'

/-- Model of Python `str.strip()`: drops whitespace from both ends. -/
def pyStrip (s : String) : String :=
  ⟨((s.data.dropWhile isPySpace).reverse.dropWhile isPySpace).reverse⟩

/-- Decimal value of a digit-only character list, as computed by Python
`int` on a string that `str.isdigit` accepts. -/
def digitValL (l : List Char) : Nat :=
  l.foldl (fun a c => a * 10 + (c.toNat - 48)) 0

/-- Decimal value of a digit-only string. -/
def digitVal (s : String) : Nat :=
  digitValL s.data

/-- Model of Python `str.isdigit`: non-empty and every character a digit
(restricted to ASCII digits, the only ones appearing in the sheets). -/
def pyIsDigit (s : String) : Bool :=
  !s.data.isEmpty && s.data.all Char.isDigit

/-- Model of Python `int(s)` on a decimal literal: optional surrounding
whitespace, optional sign, then at least one digit; any other shape raises
`ValueError`, modelled as `none`. -/
def pyInt? (s : String) : Option Int :=
  match (pyStrip s).data with
  | [] => none
  | '-' :: rest =>
    if !rest.isEmpty && rest.all Char.isDigit then some (-(digitValL rest : Int)) else none
  | '+' :: rest =>
    if !rest.isEmpty && rest.all Char.isDigit then some (digitValL rest) else none
  | l =>
    if l.all Char.isDigit then some (digitValL l) else none

/-- Model of Python `max(xs, default=0)`. -/
def pyMaxDefault0 : List Int → Int
  | [] => 0
  | x :: xs => xs.foldl max x

/-! ### `App._get_next_id` (gestor_estoque.py lines 534-553)

`ids = sheet.col_values(1)[1:]` is the id column without the header row,
passed in here as a list of cell strings. -/

/-- Embedding of `App._get_next_id`: `1` on an empty column, otherwise
`max([int(i) for i in ids if str(i).isdigit()], default=0) + 1`. -/
def get_next_id (ids : List String) : Int :=
  if ids.isEmpty then 1
  else pyMaxDefault0 ((ids.filter pyIsDigit).map fun s => (digitVal s : Int)) + 1

/-! ### `App._find_sheet_row_index_by_id` (lines 555-577)

The dataframe is represented by its (already numeric) id column, in sheet
order.  The function returns the 0-based dataframe index of the first row
whose id matches, plus 2 (1 for 1-based sheet rows, 1 for the header row),
or `none` when no row matches. -/

/-- Index of the first occurrence of `record_id` in the projected id
column, 0-based (the dataframe index produced by
`df.index[df[id] == record_id].tolist()[0]`). -/
def df_index_of : List Int → Int → Option Nat
  | [], _ => none
  | x :: xs, record_id =>
    if x = record_id then some 0 else (df_index_of xs record_id).map (· + 1)

/-- Embedding of `App._find_sheet_row_index_by_id` on a projected id column. -/
def find_sheet_row_index_by_id (ids : List Int) (record_id : Int) : Option Nat :=
  (df_index_of ids record_id).map (· + 2)

/-! ### Stock movements: `App.confirmar_movimentacao` (lines 915-1009) -/

/-- The three movement types offered by the movement window radio buttons
(source strings `Saída`, `Entrada`, `Descarte`). -/
inductive MovType where
  | saida
  | entrada
  | descarte
deriving DecidableEq, Repr

/-- Data of one selected equipment row as handed to the movement window
(`item_data` in the source): its id, display name and current quantity. -/
structure EquipItem where
  id : Int
  nome : String
  quantidade : Int
deriving DecidableEq, Repr

/-- Validation errors surfaced by the message boxes of
`App.confirmar_movimentacao`, in source order. -/
inductive MovError where
  | campoVazioResponsavel
  | campoVazioDestinoOrigem
  | campoObrigatorioLaudo
  | valorInvalidoNaoPositivo (nome : String)
  | estoqueInsuficiente (nome : String)
  | valorInvalidoNaoInteiro (nome : String)
deriving DecidableEq, Repr

/-- One row appended to the `movimentacoes` sheet (the 10-element list built
at lines 996-1000, field names following the sheet columns). -/
structure MovRecord where
  id_movimentacao : Int
  id_equipamento_fk : Int
  tipo_movimentacao : MovType
  quantidade_movida : Int
  destino_origem : String
  solicitante : String
  chamado : String
  responsavel_movimentacao : String
  data_movimentacao : String
  motivo_laudo : String
deriving DecidableEq, Repr

/-- One remote-store operation issued by the write phase of
`App.confirmar_movimentacao`, in issue order: a read of the movement sheet id
column by `_get_next_id`, a single-cell update on the `equipamentos`
sheet, or the final batch append to the `movimentacoes` sheet. -/
inductive StoreOp where
  | nextIdRead (result : Int)
  | updateCellInt (row col : Nat) (val : Int)
  | updateCellStr (row col : Nat) (val : String)
  | appendRows (rows : List MovRecord)
deriving DecidableEq, Repr

/-- Embedding of the shared-field checks at lines 934-944 (responsible
always required; destination/origin for Saída/Entrada; a non-blank
justification for Descarte). -/
def validar_campos (tipo_mov : MovType) (responsavel destino_origem motivo_laudo : String) :
    Option MovError :=
  if responsavel = "" then some .campoVazioResponsavel
  else if (tipo_mov = .saida ∨ tipo_mov = .entrada) ∧ destino_origem = "" then
    some .campoVazioDestinoOrigem
  else if tipo_mov = .descarte ∧ pyStrip motivo_laudo = "" then some .campoObrigatorioLaudo
  else none

/-- Embedding of the per-item quantity validation loop at lines 947-966:
each quantity entry is parsed with `int(...)`, must be positive, and for
Saída must not exceed the current stock of the item; the first violation aborts
the whole call.  On success it returns the `items_validados` list. -/
def validar_itens (tipo_mov : MovType) :
    List (EquipItem × String) → Except MovError (List (EquipItem × Int))
  | [] => .ok []
  | (item_data, qtd_str) :: rest =>
    match pyInt? qtd_str with
    | none => .error (.valorInvalidoNaoInteiro item_data.nome)
    | some qtd_mov =>
      if qtd_mov ≤ 0 then .error (.valorInvalidoNaoPositivo item_data.nome)
      else if tipo_mov = .saida ∧ qtd_mov > item_data.quantidade then
        .error (.estoqueInsuficiente item_data.nome)
      else
        match validar_itens tipo_mov rest with
        | .ok tail => .ok ((item_data, qtd_mov) :: tail)
        | .error e => .error e

/-- Embedding of the quantity/status transition at lines 977-985, one item
at a time: Saída subtracts and derives the status from the new quantity,
Entrada adds and is always `Em Estoque`, Descarte zeroes the stock. -/
def nova_qtd_status (tipo_mov : MovType) (qtd_atual qtd_a_mover : Int) : Int × String :=
  match tipo_mov with
  | .saida =>
    (qtd_atual - qtd_a_mover,
      if qtd_atual - qtd_a_mover > 0 then "Em Estoque" else "Fora de Estoque")
  | .entrada => (qtd_atual + qtd_a_mover, "Em Estoque")
  | .descarte => (0, "Descartado")

/-- Embedding of the write loop at lines 968-1000.  `equip_ids` is the
projected id column of `equip_df`, `mov_ids` the raw id column of the
`movimentacoes` sheet (unchanged during the loop: the append happens only
after it).  For each validated item the loop updates the equipment row
quantity (column 5) and status (column 6) when the id still resolves, then
reads `_get_next_id` on the movement sheet and queues a movement record with
id `next_id + len(novas_movimentacoes)`.  Returns the issued store
operations and the queued records. -/
def processar_itens (equip_ids : List Int) (mov_ids : List String) (tipo_mov : MovType)
    (destino_origem solicitante chamado responsavel data_mov motivo_laudo : String) :
    List (EquipItem × Int) → List MovRecord → List StoreOp × List MovRecord
  | [], novas => ([], novas)
  | (item_data, qtd_a_mover) :: rest, novas =>
    let nq := nova_qtd_status tipo_mov item_data.quantidade qtd_a_mover
    let equip_ops : List StoreOp :=
      match find_sheet_row_index_by_id equip_ids item_data.id with
      | some row_index => [.updateCellInt row_index 5 nq.1, .updateCellStr row_index 6 nq.2]
      | none => []
    let next_id := get_next_id mov_ids
    let mov_id := next_id + novas.length
    let registro : MovRecord :=
      { id_movimentacao := mov_id
        id_equipamento_fk := item_data.id
        tipo_movimentacao := tipo_mov
        quantidade_movida := qtd_a_mover
        destino_origem := destino_origem
        solicitante := if tipo_mov ≠ .descarte then solicitante else ""
        chamado := if tipo_mov ≠ .descarte then chamado else ""
        responsavel_movimentacao := responsavel
        data_movimentacao := data_mov
        motivo_laudo := if tipo_mov = .descarte then pyStrip motivo_laudo else "" }
    let res := processar_itens equip_ids mov_ids tipo_mov destino_origem solicitante
      chamado responsavel data_mov motivo_laudo rest (novas ++ [registro])
    (equip_ops ++ .nextIdRead next_id :: res.1, res.2)

/-- Embedding of `App.confirmar_movimentacao`: field validation, then the
per-item quantity validation, then (only if everything validated) the write
loop followed by the single `append_rows` batch append (lines 1004-1005,
skipped when no record was queued).  The result is the ordered trace of
store operations, or the first validation error with no operation issued. -/
def confirmar_movimentacao (equip_ids : List Int) (mov_ids : List String) (tipo_mov : MovType)
    (movimentacao_details : List (EquipItem × String))
    (responsavel solicitante chamado destino_origem motivo_laudo data_mov : String) :
    Except MovError (List StoreOp) :=
  match validar_campos tipo_mov responsavel destino_origem motivo_laudo with
  | some e => .error e
  | none =>
    match validar_itens tipo_mov movimentacao_details with
    | .error e => .error e
    | .ok items_validados =>
      let res := processar_itens equip_ids mov_ids tipo_mov destino_origem solicitante
        chamado responsavel data_mov motivo_laudo items_validados []
      .ok (res.1 ++ if res.2.isEmpty then [] else [.appendRows res.2])

/-! ### Trace observations

Helper observers over the store-operation trace of a movement, used to state
how many id reads, equipment-cell updates and movement-record appends a call
performs. -/

/-- Number of `_get_next_id` reads of the movement sheet in a trace. -/
def countNextIdReads (ops : List StoreOp) : Nat :=
  ops.countP fun op => match op with | .nextIdRead _ => true | _ => false

/-- Number of quantity-cell updates (column 5 writes) in a trace. -/
def countQtdUpdates (ops : List StoreOp) : Nat :=
  ops.countP fun op => match op with | .updateCellInt _ _ _ => true | _ => false

/-- Number of status-cell updates (column 6 writes) in a trace. -/
def countStatusUpdates (ops : List StoreOp) : Nat :=
  ops.countP fun op => match op with | .updateCellStr _ _ _ => true | _ => false

/-- Number of batch appends to the `movimentacoes` sheet in a trace. -/
def countAppends (ops : List StoreOp) : Nat :=
  ops.countP fun op => match op with | .appendRows _ => true | _ => false

/-- All movement records appended by a trace, in order. -/
def appendedRecords (ops : List StoreOp) : List MovRecord :=
  ops.foldr (fun op acc => match op with | .appendRows rs => rs ++ acc | _ => acc) []

/-! ### Equipment rows: `App.adicionar_equipamento` (lines 579-620) and
`App.salvar_edicao` (lines 622-663) -/

/-- One row of the `equipamentos` sheet, in column order A-I. -/
structure EquipRow where
  id : Int
  nome : String
  numero_serie : String
  descricao : String
  quantidade : Int
  status : String
  data_cadastro : String
  estoque_minimo : Int
  categoria : String
deriving DecidableEq, Repr

/-- Validation errors of the add/edit equipment forms, in source order. -/
inductive EquipError where
  | camposVazios
  | valorNegativo
  | valorNaoInteiro
  | itemNaoEncontrado
deriving DecidableEq, Repr

/-- Embedding of `App.adicionar_equipamento`: name and category are
mandatory, both quantities must parse as non-negative integers; on success
the appended row gets the next free id and the status derived from the
quantity (line 602). -/
def adicionar_equipamento (equip_sheet_ids : List String)
    (categoria nome serie descricao quantidade_str estoque_minimo_str : String)
    (data_cadastro : String) : Except EquipError EquipRow :=
  if nome = "" ∨ categoria = "" then .error .camposVazios
  else
    match pyInt? quantidade_str, pyInt? estoque_minimo_str with
    | some quantidade, some estoque_minimo =>
      if quantidade < 0 ∨ estoque_minimo < 0 then .error .valorNegativo
      else
        let novo_id := get_next_id equip_sheet_ids
        let status := if quantidade > 0 then "Em Estoque" else "Fora de Estoque"
        .ok ⟨novo_id, nome, serie, descricao, quantidade, status, data_cadastro,
          estoque_minimo, categoria⟩
    | _, _ => .error .valorNaoInteiro

/-- Embedding of `App.salvar_edicao`: same validation as the add form, then
the sheet row of the edited id is resolved, the original registration date
is preserved, and the full row A-I is rewritten with the status derived
from the new quantity (line 650).  Returns the sheet row index together
with the written row. -/
def salvar_edicao (equip_df : List EquipRow) (item_id : Int)
    (nome categoria serie descricao quantidade_str estoque_minimo_str : String) :
    Except EquipError (Nat × EquipRow) :=
  if nome = "" ∨ categoria = "" then .error .camposVazios
  else
    match pyInt? quantidade_str, pyInt? estoque_minimo_str with
    | some quantidade, some estoque_minimo =>
      if quantidade < 0 ∨ estoque_minimo < 0 then .error .valorNegativo
      else
        match equip_df.findIdx? fun r => r.id = item_id,
          equip_df.find? fun r => r.id = item_id with
        | some df_index, some original =>
          let novo_status := if quantidade > 0 then "Em Estoque" else "Fora de Estoque"
          .ok (df_index + 2, ⟨item_id, nome, serie, descricao, quantidade, novo_status,
            original.data_cadastro, estoque_minimo, categoria⟩)
        | _, _ => .error .itemNaoEncontrado
    | _, _ => .error .valorNaoInteiro

/-! ### Sector transfers: `App.registrar_movimentacao_setor` (lines 412-451) -/

/-- One row of the `mov_setores` sheet, in column order A-L (column L is the
regularization status, initialised to `Pendente` at line 441). -/
structure SetorRow where
  id : Int
  data_movimentacao : String
  responsavel : String
  tipo_equipamento : String
  patrimonio : String
  servicetag : String
  setor_origem : String
  setor_destino : String
  observacao : String
  chamado : String
  solicitante : String
  status_regularizacao : String
deriving DecidableEq, Repr

/-- Validation errors of the sector-transfer form, in source order. -/
inductive SetorError where
  | kitIncompleto
  | patrimonioObrigatorio
  | servicetagObrigatoria
  | camposObrigatorios
  | origemIgualDestino
deriving DecidableEq, Repr

/-- The fields read from the sector-transfer form at lines 417-423. -/
structure SetorForm where
  tipo_equip : String
  origem : String
  destino : String
  responsavel : String
  obs : String
  chamado : String
  solicitante : String
  patrimonio_entry : String
  servicetag_entry : String
  kit_p1 : String
  kit_s1 : String
  kit_p2 : String
  kit_s2 : String
  kit_p3 : String
  kit_s3 : String
deriving DecidableEq, Repr

/-- Embedding of `App.registrar_movimentacao_setor`.  For the Kit composite
type all six sub-fields are mandatory and the asset tags are joined with
newlines into `patrimonio`; the source then assigns the service-tag
concatenation to the misspelled local name `ervicetag` (line 428), so the
`servicetag` variable keeps the empty value it was initialised with at
line 419.  After the per-type checks, all shared fields are required and
origin must differ from destination; the appended row gets the next free id
and status `Pendente`. -/
def registrar_movimentacao_setor (setores_sheet_ids : List String) (data : String)
    (f : SetorForm) : Except SetorError SetorRow :=
  let campos :=
    if f.tipo_equip = "Kit (2x Monitores e 1 desktop)" then
      if f.kit_p1 ≠ "" ∧ f.kit_s1 ≠ "" ∧ f.kit_p2 ≠ "" ∧ f.kit_s2 ≠ "" ∧
          f.kit_p3 ≠ "" ∧ f.kit_s3 ≠ "" then
        let patrimonio :=
          "Monitor 1: " ++ f.kit_p1 ++ "\nMonitor 2: " ++ f.kit_p2 ++ "\nDesktop: " ++ f.kit_p3
        let ervicetag :=
          "Monitor 1: " ++ f.kit_s1 ++ "\nMonitor 2: " ++ f.kit_s2 ++ "\nDesktop: " ++ f.kit_s3
        -- the binding above shadows nothing: `servicetag` itself is untouched
        Except.ok (patrimonio, "")
      else Except.error SetorError.kitIncompleto
    else
      if f.patrimonio_entry = "" then Except.error SetorError.patrimonioObrigatorio
      else if (f.tipo_equip = "Monitor" ∨ f.tipo_equip = "Desktop") ∧ f.servicetag_entry = "" then
        Except.error SetorError.servicetagObrigatoria
      else Except.ok (f.patrimonio_entry, f.servicetag_entry)
  match campos with
  | .error e => .error e
  | .ok (patrimonio, servicetag) =>
    if f.tipo_equip = "" ∨ f.origem = "" ∨ f.destino = "" ∨ f.responsavel = "" ∨
        f.chamado = "" ∨ f.solicitante = "" then .error .camposObrigatorios
    else if f.origem = f.destino then .error .origemIgualDestino
    else
      let novo_id := get_next_id setores_sheet_ids
      .ok ⟨novo_id, data, f.responsavel, f.tipo_equip, patrimonio, servicetag,
        f.origem, f.destino, f.obs, f.chamado, f.solicitante, "Pendente"⟩

/-! ### Timestamps and the history date filter of `App.gerar_relatorio`
(lines 1291-1300 and 1318-1323)

Movement timestamps are stored as `dd-mm-yyyy HH:MM:SS` strings and parsed
by the projection into naive datetimes; filter bounds are entered as
`dd/mm/yyyy`.  Both are modelled here as proleptic-Gregorian calendar
fields, linearised to a count of seconds, which is exactly the order pandas
uses to compare naive timestamps. -/

/-- Gregorian leap-year rule. -/
def isLeap (y : Nat) : Bool :=
  (y % 4 == 0 && y % 100 != 0) || y % 400 == 0

/-- Number of days of month `m` of year `y`. -/
def daysInMonth (y : Nat) : Nat → Nat
  | 2 => if isLeap y then 29 else 28
  | 4 => 30
  | 6 => 30
  | 9 => 30
  | 11 => 30
  | _ => 31

/-- Days in year `y` that precede month `m`. -/
def daysBeforeMonth (y : Nat) : Nat → Nat
  | 0 => 0
  | 1 => 0
  | m + 1 => daysBeforeMonth y m + daysInMonth y (m + 1 - 1)

/-- Day count of a civil date from the calendar epoch. -/
def dayNumber (y m d : Nat) : Nat :=
  ((y - 1) * 365 + (y - 1) / 4 - (y - 1) / 100) + (y - 1) / 400
    + daysBeforeMonth y m + (d - 1)

/-- A naive timestamp as produced by parsing `dd-mm-yyyy HH:MM:SS`. -/
structure DateTime where
  year : Nat
  month : Nat
  day : Nat
  hour : Nat
  minute : Nat
  second : Nat
deriving DecidableEq, Repr

/-- Linearisation of a naive timestamp to seconds, the order under which
pandas compares the parsed `data_movimentacao_dt` values. -/
def toSec (t : DateTime) : Nat :=
  dayNumber t.year t.month t.day * 86400 + t.hour * 3600 + t.minute * 60 + t.second

/-- Model of `pd.to_datetime(s, format=%d/%m/%Y)` on a parseable bound:
midnight at the start of the given day, in seconds. -/
def parse_ddmmyyyy (d m y : Nat) : Nat :=
  dayNumber y m d * 86400

/-- Embedding of line 1298: the end bound of the `intervalo` filter is the
parsed end date plus `pd.Timedelta(days=1, seconds=-1)`, i.e. plus 86399
seconds. -/
def data_fim_dt (d m y : Nat) : Nat :=
  parse_ddmmyyyy d m y + (86400 - 1)

/-- Embedding of the row predicate of line 1323: a movement is kept when
its parsed timestamp is `>=` the start bound and `<=` the end bound. -/
def hist_date_filter (data_inicio_sec data_fim_sec : Nat) (t : DateTime) : Bool :=
  data_inicio_sec ≤ toSec t && toSec t ≤ data_fim_sec

/-! ### Regularization: `App.marcar_como_regularizado` (lines 1545-1574) -/

/-- Write of `Regularizado` into column L of one row of a projected
`mov_setores` table: the sheet row `n + 2` corresponds to list position
`n`. -/
def setStatusRegularizadoAt : List SetorRow → Nat → List SetorRow
  | [], _ => []
  | r :: rs, 0 => { r with status_regularizacao := "Regularizado" } :: rs
  | r :: rs, n + 1 => r :: setStatusRegularizadoAt rs n

/-- Application of the single `batch_update` call at line 1572: each queued
update writes `Regularizado` into column L of its sheet row. -/
def apply_regularizado_updates (rows : List SetorRow) (updates : List Nat) : List SetorRow :=
  updates.foldl (fun acc row_index => setStatusRegularizadoAt acc (row_index - 2)) rows

/-- Embedding of `App.marcar_como_regularizado`: for every selected id the
sheet row is resolved against the projection (ids that no longer resolve
are skipped); if no id resolved an error is reported (line 1567), otherwise
all updates are sent in one batch. -/
def marcar_como_regularizado (rows : List SetorRow) (selected_ids : List Int) :
    Except Unit (List SetorRow) :=
  let updates := selected_ids.filterMap fun mov_id =>
    find_sheet_row_index_by_id (rows.map (·.id)) mov_id
  if updates.isEmpty then .error ()
  else .ok (apply_regularizado_updates rows updates)

/-! ### Data projection: `App.refresh_dataframes` (lines 331-356) -/

/-- One raw row of the `equipamentos` sheet as returned by
`get_all_records`, every cell a string. -/
structure RawEquipRow where
  id : String
  nome : String
  numero_serie : String
  descricao : String
  quantidade : String
  status : String
  data_cadastro : String
  estoque_minimo : String
  categoria : String
deriving DecidableEq, Repr

/-- Embedding of the coercion applied at lines 343-344 to each of the
columns `id`, `quantidade` and `estoque_minimo`:
`pd.to_numeric(col, errors=coerce).fillna(1)` — an unparseable cell becomes
`NaN` and is then replaced by the default `1`. -/
def to_numeric_fillna1 (cell : String) : Int :=
  (pyInt? cell).getD 1

/-- Projection of one raw equipment row into the typed in-memory table: the
same numeric coercion is applied to `id`, `quantidade` and
`estoque_minimo`; the remaining columns are kept as text. -/
def project_equip_row (raw : RawEquipRow) : EquipRow :=
  { id := to_numeric_fillna1 raw.id
    nome := raw.nome
    numero_serie := raw.numero_serie
    descricao := raw.descricao
    quantidade := to_numeric_fillna1 raw.quantidade
    status := raw.status
    data_cadastro := raw.data_cadastro
    estoque_minimo := to_numeric_fillna1 raw.estoque_minimo
    categoria := raw.categoria }

/-! ### Supporting lemmas -/

/-- On a non-empty list, `pyMaxDefault0` is a member and an upper bound. -/
lemma pyMaxDefault0_spec (x : Int) (xs : List Int) :
    pyMaxDefault0 (x :: xs) ∈ x :: xs ∧ ∀ v ∈ x :: xs, v ≤ pyMaxDefault0 (x :: xs) := by
  induction xs generalizing x with
  | nil => simp [pyMaxDefault0]
  | cons y ys ih =>
    have key : pyMaxDefault0 (x :: y :: ys) = pyMaxDefault0 (max x y :: ys) := by
      simp [pyMaxDefault0]
    have h := ih (max x y)
    rw [key]
    refine ⟨?_, ?_⟩
    · rcases List.mem_cons.mp h.1 with h1 | h1
      · rw [h1]
        rcases max_choice x y with hc | hc <;> rw [hc] <;> simp
      · simp [List.mem_cons, h1]
    · intro v hv
      rcases List.mem_cons.mp hv with rfl | hv
      · exact le_trans (le_max_left v y) (h.2 _ (List.mem_cons_self _ _))
      rcases List.mem_cons.mp hv with rfl | hv
      · exact le_trans (le_max_right x v) (h.2 _ (List.mem_cons_self _ _))
      · exact h.2 v (List.mem_cons_of_mem _ hv)

/-- The movement records the write loop of `App.confirmar_movimentacao`
queues for a validated batch, the `k`-th record carrying id
`_get_next_id(mov_sheet) + k` (mirrors lines 994-1000). -/
def registros_do_lote (mov_ids : List String) (tipo_mov : MovType)
    (destino_origem solicitante chamado responsavel data_mov motivo_laudo : String) :
    List (EquipItem × Int) → Nat → List MovRecord
  | [], _ => []
  | (item_data, qtd_a_mover) :: rest, k =>
    ⟨get_next_id mov_ids + k, item_data.id, tipo_mov, qtd_a_mover, destino_origem,
      (if tipo_mov ≠ .descarte then solicitante else ""),
      (if tipo_mov ≠ .descarte then chamado else ""),
      responsavel, data_mov,
      (if tipo_mov = .descarte then pyStrip motivo_laudo else "")⟩
      :: registros_do_lote mov_ids tipo_mov destino_origem solicitante chamado responsavel
        data_mov motivo_laudo rest (k + 1)

section ProcessarLemmas

variable (equip_ids : List Int) (mov_ids : List String) (tipo_mov : MovType)
variable (destino_origem solicitante chamado responsavel data_mov motivo_laudo : String)

lemma processar_itens_snd (validados : List (EquipItem × Int)) :
    ∀ novas,
      (processar_itens equip_ids mov_ids tipo_mov destino_origem solicitante chamado
        responsavel data_mov motivo_laudo validados novas).2 =
      novas ++ registros_do_lote mov_ids tipo_mov destino_origem solicitante chamado
        responsavel data_mov motivo_laudo validados novas.length := by
  induction validados with
  | nil => intro novas; simp [processar_itens, registros_do_lote]
  | cons p rest ih =>
    intro novas
    obtain ⟨item_data, qtd_a_mover⟩ := p
    simp only [processar_itens, registros_do_lote]
    rw [ih]
    simp

lemma processar_itens_fst (validados : List (EquipItem × Int)) :
    ∀ novas,
      countNextIdReads (processar_itens equip_ids mov_ids tipo_mov destino_origem solicitante
        chamado responsavel data_mov motivo_laudo validados novas).1 = validados.length ∧
      countQtdUpdates (processar_itens equip_ids mov_ids tipo_mov destino_origem solicitante
        chamado responsavel data_mov motivo_laudo validados novas).1 =
        (validados.filter fun p =>
          (find_sheet_row_index_by_id equip_ids p.1.id).isSome).length ∧
      countStatusUpdates (processar_itens equip_ids mov_ids tipo_mov destino_origem solicitante
        chamado responsavel data_mov motivo_laudo validados novas).1 =
        (validados.filter fun p =>
          (find_sheet_row_index_by_id equip_ids p.1.id).isSome).length ∧
      countAppends (processar_itens equip_ids mov_ids tipo_mov destino_origem solicitante
        chamado responsavel data_mov motivo_laudo validados novas).1 = 0 ∧
      appendedRecords (processar_itens equip_ids mov_ids tipo_mov destino_origem solicitante
        chamado responsavel data_mov motivo_laudo validados novas).1 = [] := by
  induction validados with
  | nil =>
    intro novas
    simp [processar_itens, countNextIdReads, countQtdUpdates, countStatusUpdates,
      countAppends, appendedRecords]
  | cons p rest ih =>
    intro novas
    obtain ⟨item_data, qtd_a_mover⟩ := p
    have h := ih (novas ++ [⟨get_next_id mov_ids + novas.length, item_data.id, tipo_mov,
      qtd_a_mover, destino_origem,
      (if tipo_mov ≠ .descarte then solicitante else ""),
      (if tipo_mov ≠ .descarte then chamado else ""),
      responsavel, data_mov,
      (if tipo_mov = .descarte then pyStrip motivo_laudo else "")⟩])
    simp only [processar_itens]
    rcases hrow : find_sheet_row_index_by_id equip_ids item_data.id with _ | row
    · simpa [countNextIdReads, countQtdUpdates, countStatusUpdates, countAppends,
        appendedRecords, List.countP_cons, hrow] using h
    · simpa [countNextIdReads, countQtdUpdates, countStatusUpdates, countAppends,
        appendedRecords, List.countP_cons, hrow] using h

lemma registros_do_lote_length (validados : List (EquipItem × Int)) :
    ∀ k, (registros_do_lote mov_ids tipo_mov destino_origem solicitante chamado responsavel
      data_mov motivo_laudo validados k).length = validados.length := by
  induction validados with
  | nil => intro k; rfl
  | cons p rest ih =>
    intro k
    obtain ⟨item_data, qtd_a_mover⟩ := p
    simp [registros_do_lote, ih]

lemma registros_do_lote_data (validados : List (EquipItem × Int)) :
    ∀ k r, r ∈ registros_do_lote mov_ids tipo_mov destino_origem solicitante chamado
      responsavel data_mov motivo_laudo validados k → r.data_movimentacao = data_mov := by
  induction validados with
  | nil => intro k r hr; simp [registros_do_lote] at hr
  | cons p rest ih =>
    intro k r hr
    obtain ⟨item_data, qtd_a_mover⟩ := p
    rcases List.mem_cons.mp hr with rfl | hr
    · rfl
    · exact ih (k + 1) r hr

lemma registros_do_lote_map_id (validados : List (EquipItem × Int)) :
    ∀ k, (registros_do_lote mov_ids tipo_mov destino_origem solicitante chamado responsavel
      data_mov motivo_laudo validados k).map (·.id_movimentacao) =
      (List.range validados.length).map fun i => get_next_id mov_ids + ((k + i : Nat) : Int) := by
  induction validados with
  | nil => intro k; rfl
  | cons p rest ih =>
    intro k
    obtain ⟨item_data, qtd_a_mover⟩ := p
    simp only [registros_do_lote, List.map_cons, List.length_cons,
      List.range_succ_eq_map, ih (k + 1), List.map_map, List.cons.injEq]
    refine ⟨by omega, ?_⟩
    apply List.map_congr_left
    intro i _
    simp only [Function.comp_apply]
    omega

lemma registros_do_lote_fk (validados : List (EquipItem × Int)) :
    ∀ k p, p ∈ validados →
      ∃ r ∈ registros_do_lote mov_ids tipo_mov destino_origem solicitante chamado responsavel
        data_mov motivo_laudo validados k, r.id_equipamento_fk = p.1.id := by
  induction validados with
  | nil => intro k p hp; simp at hp
  | cons q rest ih =>
    intro k p hp
    obtain ⟨item_data, qtd_a_mover⟩ := q
    rcases List.mem_cons.mp hp with rfl | hp
    · exact ⟨_, List.mem_cons_self _ _, rfl⟩
    · obtain ⟨r, hr, hid⟩ := ih (k + 1) p hp
      exact ⟨r, List.mem_cons_of_mem _ hr, hid⟩

end ProcessarLemmas

lemma validar_itens_ok_length (tipo_mov : MovType) :
    ∀ details validados, validar_itens tipo_mov details = .ok validados →
      validados.length = details.length := by
  intro details
  induction details with
  | nil => intro validados h; simp [validar_itens] at h; simp [← h]
  | cons p rest ih =>
    intro validados h
    obtain ⟨item_data, qtd_str⟩ := p
    revert h
    simp only [validar_itens]
    cases hq : pyInt? qtd_str with
    | none => intro h; simp at h
    | some q =>
      dsimp only []
      by_cases h1 : q ≤ 0
      · rw [if_pos h1]; intro h; simp at h
      · rw [if_neg h1]
        by_cases h2 : tipo_mov = .saida ∧ q > item_data.quantidade
        · rw [if_pos h2]; intro h; simp at h
        · rw [if_neg h2]
          cases htail : validar_itens tipo_mov rest with
          | error e => intro h; simp at h
          | ok tail =>
            intro h
            simp only [Except.ok.injEq] at h
            rw [← h]
            simp [ih tail htail]

lemma appendedRecords_foldr (init : List MovRecord) (l : List StoreOp) :
    l.foldr (fun op acc => match op with | .appendRows rs => rs ++ acc | _ => acc) init =
    appendedRecords l ++ init := by
  induction l with
  | nil => rfl
  | cons op rest ih =>
    cases op <;> simp [appendedRecords, ih]

lemma appendedRecords_append (a b : List StoreOp) :
    appendedRecords (a ++ b) = appendedRecords a ++ appendedRecords b := by
  show List.foldr _ [] (a ++ b) = _
  rw [List.foldr_append, appendedRecords_foldr]
  rfl

lemma confirmar_movimentacao_ok (equip_ids : List Int) (mov_ids : List String)
    (tipo_mov : MovType) (details : List (EquipItem × String))
    (responsavel solicitante chamado destino_origem motivo_laudo data_mov : String)
    (validados : List (EquipItem × Int))
    (hvc : validar_campos tipo_mov responsavel destino_origem motivo_laudo = none)
    (hvi : validar_itens tipo_mov details = .ok validados) :
    confirmar_movimentacao equip_ids mov_ids tipo_mov details responsavel solicitante chamado
      destino_origem motivo_laudo data_mov =
    .ok ((processar_itens equip_ids mov_ids tipo_mov destino_origem solicitante chamado
        responsavel data_mov motivo_laudo validados []).1 ++
      if (processar_itens equip_ids mov_ids tipo_mov destino_origem solicitante chamado
          responsavel data_mov motivo_laudo validados []).2.isEmpty then []
      else [.appendRows (processar_itens equip_ids mov_ids tipo_mov destino_origem solicitante
        chamado responsavel data_mov motivo_laudo validados []).2]) := by
  simp [confirmar_movimentacao, hvc, hvi]

/-! ### Claim theorems -/

/-- C4: for every id-column state, `_get_next_id` returns the maximum of
the numeric (digit-string) ids plus 1, ignoring non-numeric entries; it
returns 1 when no numeric id exists, in particular 1 on an empty column,
and 8 on the column `[3, 7, "x"]`. -/
theorem get_next_id_spec (ids : List String) :
    (ids.filter pyIsDigit = [] → get_next_id ids = 1) ∧
    (ids.filter pyIsDigit ≠ [] →
      ∃ m : Int,
        m ∈ (ids.filter pyIsDigit).map (fun s => (digitVal s : Int)) ∧
        (∀ v ∈ (ids.filter pyIsDigit).map (fun s => (digitVal s : Int)), v ≤ m) ∧
        get_next_id ids = m + 1) ∧
    get_next_id [] = 1 ∧ get_next_id ["3", "7", "x"] = 8 := by
  refine ⟨?_, ?_, by decide, by decide⟩
  · intro hempty
    rcases ids with _ | ⟨i, ids⟩
    · rfl
    · simp [get_next_id, hempty, pyMaxDefault0]
  · intro hne
    rcases hfilter : ids.filter pyIsDigit with _ | ⟨j, js⟩
    · exact absurd hfilter hne
    · have hids : ¬ ids.isEmpty := by
        rcases ids with _ | _
        · simp at hfilter
        · simp
      have hspec := pyMaxDefault0_spec ((digitVal j : Int)) (js.map fun s => (digitVal s : Int))
      refine ⟨pyMaxDefault0 ((j :: js).map fun s => (digitVal s : Int)), ?_, ?_, ?_⟩
      · simpa using hspec.1
      · simpa using hspec.2
      · simp [get_next_id, hids, hfilter]

/-- C4 witness: concrete applications of the theorem, discharging the
no-numeric-id hypothesis on `["x"]` and the nonempty-numeric hypothesis on
`["3", "7", "x"]`. -/
theorem get_next_id_spec_witness :
    get_next_id ["x"] = 1 ∧
    (∃ m : Int,
      m ∈ ((["3", "7", "x"].filter pyIsDigit).map fun s => (digitVal s : Int)) ∧
      (∀ v ∈ ((["3", "7", "x"].filter pyIsDigit).map fun s => (digitVal s : Int)), v ≤ m) ∧
      get_next_id ["3", "7", "x"] = m + 1) :=
  ⟨(get_next_id_spec ["x"]).1 (by decide),
    (get_next_id_spec ["3", "7", "x"]).2.1 (by decide)⟩

/-- Concrete Kit transfer form with all six sub-fields filled. -/
def kitForm : SetorForm :=
  ⟨"Kit (2x Monitores e 1 desktop)", "Setor A", "Setor B", "Resp", "obs", "ch", "sol",
    "", "", "P1", "S1", "P2", "S2", "P3", "S3"⟩

/-- The row `registrar_movimentacao_setor` appends for `kitForm` on an
empty sheet. -/
def kitRow : SetorRow :=
  ⟨1, "01-01-2025 10:00:00", "Resp", "Kit (2x Monitores e 1 desktop)",
    "Monitor 1: P1\nMonitor 2: P2\nDesktop: P3", "", "Setor A", "Setor B",
    "obs", "ch", "sol", "Pendente"⟩

/-- C7: for a Kit sector transfer with all six sub-fields non-empty, the
appended row newline-joins the three asset tags into `patrimonio`, but the
`servicetag` field is written as the empty string (the source assigns the
service-tag concatenation to the misspelled local `ervicetag`), not as the
newline-joined composition of the three service tags the claim states. -/
theorem registrar_kit_servicetag_bug :
    registrar_movimentacao_setor [] "01-01-2025 10:00:00" kitForm = .ok kitRow ∧
    kitRow.patrimonio = "Monitor 1: P1\nMonitor 2: P2\nDesktop: P3" ∧
    kitRow.servicetag = "" ∧
    kitRow.servicetag ≠ "Monitor 1: S1\nMonitor 2: S2\nDesktop: S3" := by
  refine ⟨rfl, rfl, rfl, by decide⟩

/-- C8: the end bound of the `intervalo` history filter is inclusive
through 23:59:59 of the end day: for every entered end date it equals the
linearisation of that day at 23:59:59, for the example bound 31/01/2025 it
is the start of 01-02-2025 minus one second, and with bounds
01/01/2025-31/01/2025 the filter keeps a movement at 31-01-2025 23:59:59
and drops one at 01-02-2025 00:00:00. -/
theorem gerar_relatorio_end_bound_inclusive :
    (∀ d m y : Nat, data_fim_dt d m y = toSec ⟨y, m, d, 23, 59, 59⟩) ∧
    data_fim_dt 31 1 2025 + 1 = toSec ⟨2025, 2, 1, 0, 0, 0⟩ ∧
    hist_date_filter (parse_ddmmyyyy 1 1 2025) (data_fim_dt 31 1 2025)
      ⟨2025, 1, 31, 23, 59, 59⟩ = true ∧
    hist_date_filter (parse_ddmmyyyy 1 1 2025) (data_fim_dt 31 1 2025)
      ⟨2025, 2, 1, 0, 0, 0⟩ = false := by
  refine ⟨?_, by decide, by decide, by decide⟩
  intro d m y
  show dayNumber y m d * 86400 + (86400 - 1) =
    dayNumber y m d * 86400 + 23 * 3600 + 59 * 60 + 59
  omega

/-- Raw equipment row whose id cell is not numeric. -/
def rawBadId : RawEquipRow :=
  ⟨"x", "Teclado legado", "", "", "2", "Em Estoque", "01-01-2024 09:00:00", "1", "Periféricos"⟩

/-- Raw equipment row with the genuine id 1. -/
def rawGenuine1 : RawEquipRow :=
  ⟨"1", "Mouse", "", "", "5", "Em Estoque", "02-01-2024 09:00:00", "1", "Periféricos"⟩

/-- C10: in the projection, an equipment row whose id cell fails numeric
parsing gets id 1 — the same default the projection applies to the quantity
and minimum-stock columns — rather than a null or dropped id, so a lookup
by id 1 against a table holding such a row first finds the malformed row
(sheet row 2) instead of the genuine id-1 row (sheet row 3). -/
theorem project_bad_id_defaults_to_1 :
    (∀ s, pyInt? s = none → to_numeric_fillna1 s = 1) ∧
    (∀ raw : RawEquipRow, pyInt? raw.id = none →
      (project_equip_row raw).id = 1 ∧
      (project_equip_row raw).id = (project_equip_row rawGenuine1).id) ∧
    (∀ raw : RawEquipRow, pyInt? raw.quantidade = none →
      (project_equip_row raw).quantidade = 1) ∧
    (∀ raw : RawEquipRow, pyInt? raw.estoque_minimo = none →
      (project_equip_row raw).estoque_minimo = 1) ∧
    find_sheet_row_index_by_id
      (([rawBadId, rawGenuine1].map project_equip_row).map (·.id)) 1 = some 2 := by
  refine ⟨?_, ?_, ?_, ?_, by decide⟩
  · intro s hs; simp [to_numeric_fillna1, hs]
  · intro raw hraw
    constructor
    · simp [project_equip_row, to_numeric_fillna1, hraw]
    · simp [project_equip_row, to_numeric_fillna1, hraw, rawGenuine1]
      decide
  · intro raw hraw; simp [project_equip_row, to_numeric_fillna1, hraw]
  · intro raw hraw; simp [project_equip_row, to_numeric_fillna1, hraw]

/-- C10 witness: the theorem applied to the concrete malformed row. -/
theorem project_bad_id_defaults_to_1_witness :
    (project_equip_row rawBadId).id = 1 ∧
    (project_equip_row rawBadId).id = (project_equip_row rawGenuine1).id :=
  (project_bad_id_defaults_to_1.2.1) rawBadId (by decide)

/-- C1: for an Out movement on an item whose entered quantity parses to the
integer `q`, with the shared fields filled and the item id resolving to a
sheet row: if `0 < q ≤ c` the call updates the row to quantity `c - q` with
status derived from the new quantity and appends one Out record of `q`;
if `q > c` the call is rejected with the insufficient-stock error and no
store operation is issued, so the quantity is unchanged. -/
theorem confirmar_saida_spec (equip_ids : List Int) (mov_ids : List String)
    (item : EquipItem) (qtd_str : String) (q : Int)
    (responsavel solicitante chamado destino motivo data_mov : String) (row : Nat)
    (hq : pyInt? qtd_str = some q)
    (hr : responsavel ≠ "") (hd : destino ≠ "") (hc : 0 ≤ item.quantidade)
    (hrow : find_sheet_row_index_by_id equip_ids item.id = some row) :
    (0 < q → q ≤ item.quantidade →
      confirmar_movimentacao equip_ids mov_ids .saida [(item, qtd_str)] responsavel
        solicitante chamado destino motivo data_mov =
      .ok [.updateCellInt row 5 (item.quantidade - q),
        .updateCellStr row 6
          (if item.quantidade - q > 0 then "Em Estoque" else "Fora de Estoque"),
        .nextIdRead (get_next_id mov_ids),
        .appendRows [⟨get_next_id mov_ids, item.id, .saida, q, destino, solicitante,
          chamado, responsavel, data_mov, ""⟩]]) ∧
    (item.quantidade < q →
      confirmar_movimentacao equip_ids mov_ids .saida [(item, qtd_str)] responsavel
        solicitante chamado destino motivo data_mov =
      .error (.estoqueInsuficiente item.nome)) := by
  have hvc : validar_campos .saida responsavel destino motivo = none := by
    simp [validar_campos, hr, hd]
  constructor
  · intro hpos hle
    have h1 : ¬ q ≤ 0 := by omega
    have h2 : ¬ item.quantidade < q := by omega
    simp [confirmar_movimentacao, hvc, validar_itens, hq, h1, h2,
      processar_itens, hrow, nova_qtd_status]
  · intro hgt
    have h1 : ¬ q ≤ 0 := by omega
    simp [confirmar_movimentacao, hvc, validar_itens, hq, h1, hgt]

/-- C1 witness: a concrete item with quantity 10 — an Out of 3 succeeds
leaving 7 in stock, and an Out of 11 is rejected with InsufficientStock. -/
theorem confirmar_saida_spec_witness :
    (confirmar_movimentacao [5] ["1", "2"] .saida [(⟨5, "Mouse", 10⟩, "3")] "Ana" "Bob"
      "c1" "TI" "" "01-01-2025 10:00:00" =
    .ok [.updateCellInt 2 5 7, .updateCellStr 2 6 "Em Estoque", .nextIdRead 3,
      .appendRows [⟨3, 5, .saida, 3, "TI", "Bob", "c1", "Ana", "01-01-2025 10:00:00", ""⟩]]) ∧
    (confirmar_movimentacao [5] ["1", "2"] .saida [(⟨5, "Mouse", 11⟩, "12")] "Ana" "Bob"
      "c1" "TI" "" "01-01-2025 10:00:00" =
    .error (.estoqueInsuficiente "Mouse")) := by
  constructor
  · have h := (confirmar_saida_spec [5] ["1", "2"] ⟨5, "Mouse", 10⟩ "3" 3 "Ana" "Bob" "c1"
      "TI" "" "01-01-2025 10:00:00" 2 (by decide) (by decide) (by decide) (by decide)
      (by decide)).1 (by decide) (by decide)
    simpa using h
  · exact (confirmar_saida_spec [5] ["1", "2"] ⟨5, "Mouse", 11⟩ "12" 12 "Ana" "Bob" "c1"
      "TI" "" "01-01-2025 10:00:00" 2 (by decide) (by decide) (by decide) (by decide)
      (by decide)).2 (by decide)

/-- C2: with valid shared fields, when the per-item validation of a batch
succeeds and every item id resolves, the call issues exactly one movement
record per item (all in one batch append, all carrying the single timestamp
captured for the batch) and one quantity-cell plus one status-cell update
per item; when the per-item validation fails, the call returns that error
and issues no store operation at all. -/
theorem confirmar_movimentacao_batch (equip_ids : List Int) (mov_ids : List String)
    (tipo_mov : MovType) (details : List (EquipItem × String))
    (responsavel solicitante chamado destino_origem motivo_laudo data_mov : String)
    (hvc : validar_campos tipo_mov responsavel destino_origem motivo_laudo = none) :
    (∀ validados, validar_itens tipo_mov details = .ok validados →
      (∀ p ∈ validados, (find_sheet_row_index_by_id equip_ids p.1.id).isSome = true) →
      details ≠ [] →
      ∃ ops, confirmar_movimentacao equip_ids mov_ids tipo_mov details responsavel
          solicitante chamado destino_origem motivo_laudo data_mov = .ok ops ∧
        (appendedRecords ops).length = details.length ∧
        (∀ r ∈ appendedRecords ops, r.data_movimentacao = data_mov) ∧
        countQtdUpdates ops = details.length ∧
        countStatusUpdates ops = details.length ∧
        countAppends ops = 1) ∧
    (∀ e, validar_itens tipo_mov details = .error e →
      confirmar_movimentacao equip_ids mov_ids tipo_mov details responsavel solicitante
        chamado destino_origem motivo_laudo data_mov = .error e) := by
  constructor
  · intro validados hvi hres hne
    have hlen := validar_itens_ok_length tipo_mov details validados hvi
    have hfst := processar_itens_fst equip_ids mov_ids tipo_mov destino_origem solicitante
      chamado responsavel data_mov motivo_laudo validados []
    have hsnd := processar_itens_snd equip_ids mov_ids tipo_mov destino_origem solicitante
      chamado responsavel data_mov motivo_laudo validados []
    have hfilter : validados.filter
        (fun p => (find_sheet_row_index_by_id equip_ids p.1.id).isSome) = validados :=
      List.filter_eq_self.mpr hres
    have hvne : validados ≠ [] := by
      intro hv
      rw [hv] at hlen
      exact hne (List.eq_nil_of_length_eq_zero hlen.symm)
    have hrne : (processar_itens equip_ids mov_ids tipo_mov destino_origem solicitante
        chamado responsavel data_mov motivo_laudo validados []).2 ≠ [] := by
      rw [hsnd]
      simp only [List.nil_append, List.length_nil]
      intro hcontra
      have := registros_do_lote_length mov_ids tipo_mov destino_origem solicitante chamado
        responsavel data_mov motivo_laudo validados 0
      rw [hcontra] at this
      exact hvne (List.eq_nil_of_length_eq_zero this.symm)
    refine ⟨_, confirmar_movimentacao_ok equip_ids mov_ids tipo_mov details responsavel
      solicitante chamado destino_origem motivo_laudo data_mov validados hvc hvi, ?_, ?_, ?_, ?_, ?_⟩
    · rw [if_neg (by simpa [List.isEmpty_iff] using hrne), appendedRecords_append, hfst.2.2.2.2]
      simp only [List.nil_append, appendedRecords, List.foldr_cons, List.foldr_nil,
        List.append_nil]
      rw [hsnd]
      simp only [List.nil_append, List.length_nil]
      rw [registros_do_lote_length, hlen]
    · intro r hr
      rw [if_neg (by simpa [List.isEmpty_iff] using hrne), appendedRecords_append,
        hfst.2.2.2.2] at hr
      simp only [List.nil_append, appendedRecords, List.foldr_cons, List.foldr_nil,
        List.append_nil] at hr
      rw [hsnd] at hr
      simp only [List.nil_append, List.length_nil] at hr
      exact registros_do_lote_data mov_ids tipo_mov destino_origem solicitante chamado
        responsavel data_mov motivo_laudo validados 0 r hr
    · rw [if_neg (by simpa [List.isEmpty_iff] using hrne)]
      unfold countQtdUpdates
      rw [List.countP_append]
      have h1 : countQtdUpdates (processar_itens equip_ids mov_ids tipo_mov destino_origem
          solicitante chamado responsavel data_mov motivo_laudo validados []).1 =
          validados.length := by
        rw [hfst.2.1, hfilter]
      unfold countQtdUpdates at h1
      rw [h1, hlen]
      simp [List.countP_cons]
    · rw [if_neg (by simpa [List.isEmpty_iff] using hrne)]
      unfold countStatusUpdates
      rw [List.countP_append]
      have h1 : countStatusUpdates (processar_itens equip_ids mov_ids tipo_mov destino_origem
          solicitante chamado responsavel data_mov motivo_laudo validados []).1 =
          validados.length := by
        rw [hfst.2.2.1, hfilter]
      unfold countStatusUpdates at h1
      rw [h1, hlen]
      simp [List.countP_cons]
    · rw [if_neg (by simpa [List.isEmpty_iff] using hrne)]
      unfold countAppends
      rw [List.countP_append]
      have hz := hfst.2.2.2.1
      unfold countAppends at hz
      rw [hz]
      simp [List.countP_cons]
  · intro e hvi
    simp [confirmar_movimentacao, hvc, hvi]

/-- C2 witness: a concrete validated two-item Entrada batch — two records in
one append sharing the batch timestamp, two quantity and two status
updates; the theorem is applied with all hypotheses discharged. -/
theorem confirmar_movimentacao_batch_witness :
    ∃ ops, confirmar_movimentacao [5, 6] ["4"] .entrada
        [(⟨5, "A", 1⟩, "2"), (⟨6, "B", 0⟩, "1")] "Ana" "Bob" "c1" "Dep" "" "d" = .ok ops ∧
      (appendedRecords ops).length = 2 ∧
      (∀ r ∈ appendedRecords ops, r.data_movimentacao = "d") ∧
      countQtdUpdates ops = 2 ∧
      countStatusUpdates ops = 2 ∧
      countAppends ops = 1 := by
  have h := (confirmar_movimentacao_batch [5, 6] ["4"] .entrada
      [(⟨5, "A", 1⟩, "2"), (⟨6, "B", 0⟩, "1")] "Ana" "Bob" "c1" "Dep" "" "d"
      (by rfl)).1 [(⟨5, "A", 1⟩, 2), (⟨6, "B", 0⟩, 1)] (by rfl) (by decide) (by decide)
  simpa using h

lemma appendedRecords_tail_if (snd : List MovRecord) :
    appendedRecords (if snd.isEmpty then [] else [.appendRows snd]) = snd := by
  cases snd <;> simp [appendedRecords]

lemma countQtdUpdates_tail_if (snd : List MovRecord) :
    countQtdUpdates (if snd.isEmpty then [] else [.appendRows snd]) = 0 := by
  cases snd <;> simp [countQtdUpdates]

lemma countNextIdReads_tail_if (snd : List MovRecord) :
    countNextIdReads (if snd.isEmpty then [] else [.appendRows snd]) = 0 := by
  cases snd <;> simp [countNextIdReads]

/-- C5 (amended): for every validated batch the queued records carry the
consecutive ids `base, base+1, ..., base+N-1` with `base` the value of
`_get_next_id` on the untouched movement sheet — but the call reads
`_get_next_id` once per row (N reads for N items), not once per batch; the
reads all return the same base only because the batch append happens after
the loop. -/
theorem lote_ids_sequenciais (equip_ids : List Int) (mov_ids : List String)
    (tipo_mov : MovType) (details : List (EquipItem × String))
    (responsavel solicitante chamado destino_origem motivo_laudo data_mov : String)
    (validados : List (EquipItem × Int))
    (hvc : validar_campos tipo_mov responsavel destino_origem motivo_laudo = none)
    (hvi : validar_itens tipo_mov details = .ok validados) :
    ∃ ops, confirmar_movimentacao equip_ids mov_ids tipo_mov details responsavel
        solicitante chamado destino_origem motivo_laudo data_mov = .ok ops ∧
      countNextIdReads ops = validados.length ∧
      (appendedRecords ops).map (·.id_movimentacao) =
        (List.range validados.length).map fun i : Nat => get_next_id mov_ids + (i : Int) := by
  have hfst := processar_itens_fst equip_ids mov_ids tipo_mov destino_origem solicitante
    chamado responsavel data_mov motivo_laudo validados []
  have hsnd := processar_itens_snd equip_ids mov_ids tipo_mov destino_origem solicitante
    chamado responsavel data_mov motivo_laudo validados []
  simp only [List.nil_append, List.length_nil] at hsnd
  refine ⟨_, confirmar_movimentacao_ok equip_ids mov_ids tipo_mov details responsavel
    solicitante chamado destino_origem motivo_laudo data_mov validados hvc hvi, ?_, ?_⟩
  · unfold countNextIdReads
    rw [List.countP_append]
    have h1 := hfst.1
    unfold countNextIdReads at h1
    rw [h1]
    have h2 := countNextIdReads_tail_if (processar_itens equip_ids mov_ids tipo_mov
      destino_origem solicitante chamado responsavel data_mov motivo_laudo validados []).2
    unfold countNextIdReads at h2
    rw [h2, Nat.add_zero]
  · rw [appendedRecords_append, hfst.2.2.2.2, appendedRecords_tail_if, List.nil_append,
      hsnd, registros_do_lote_map_id]
    apply List.map_congr_left
    intro i _
    simp

/-- C5 witness: the amended theorem applied to the concrete two-item batch. -/
theorem lote_ids_sequenciais_witness :
    ∃ ops, confirmar_movimentacao [5, 6] ["4"] .entrada
        [(⟨5, "A", 1⟩, "2"), (⟨6, "B", 0⟩, "1")] "Ana" "Bob" "c1" "Dep" "" "d" = .ok ops ∧
      countNextIdReads ops = 2 ∧
      (appendedRecords ops).map (·.id_movimentacao) =
        (List.range 2).map fun i : Nat => get_next_id ["4"] + (i : Int) := by
  have h := lote_ids_sequenciais [5, 6] ["4"] .entrada
    [(⟨5, "A", 1⟩, "2"), (⟨6, "B", 0⟩, "1")] "Ana" "Bob" "c1" "Dep" "" "d"
    [(⟨5, "A", 1⟩, 2), (⟨6, "B", 0⟩, 1)] (by rfl) (by rfl)
  simpa using h

/-- C5 counterexample: on a two-item batch the trace holds two
`_get_next_id` reads of the movement sheet, not the single call per batch
the claim requires. -/
theorem lote_nextid_lido_por_linha :
    ∃ ops, confirmar_movimentacao [5, 6] ["4"] .entrada
        [(⟨5, "A", 1⟩, "2"), (⟨6, "B", 0⟩, "1")] "Ana" "Bob" "c1" "Dep" "" "d" = .ok ops ∧
      countNextIdReads ops = 2 ∧ ¬ countNextIdReads ops = 1 := by
  refine ⟨_, rfl, rfl, by decide⟩

/-- C6 (amended): for every item of a validated batch whose id no longer
resolves to a sheet row, only the equipment-row update is skipped; a
movement record for that item is still appended.  In general the batch
appends one record per validated item while issuing quantity updates only
for the items whose ids resolve. -/
theorem item_sem_linha_ainda_registra (equip_ids : List Int) (mov_ids : List String)
    (tipo_mov : MovType) (details : List (EquipItem × String))
    (responsavel solicitante chamado destino_origem motivo_laudo data_mov : String)
    (validados : List (EquipItem × Int))
    (hvc : validar_campos tipo_mov responsavel destino_origem motivo_laudo = none)
    (hvi : validar_itens tipo_mov details = .ok validados) :
    ∃ ops, confirmar_movimentacao equip_ids mov_ids tipo_mov details responsavel
        solicitante chamado destino_origem motivo_laudo data_mov = .ok ops ∧
      (appendedRecords ops).length = validados.length ∧
      countQtdUpdates ops = (validados.filter fun p =>
        (find_sheet_row_index_by_id equip_ids p.1.id).isSome).length ∧
      (∀ p ∈ validados, find_sheet_row_index_by_id equip_ids p.1.id = none →
        ∃ r ∈ appendedRecords ops, r.id_equipamento_fk = p.1.id) := by
  have hfst := processar_itens_fst equip_ids mov_ids tipo_mov destino_origem solicitante
    chamado responsavel data_mov motivo_laudo validados []
  have hsnd := processar_itens_snd equip_ids mov_ids tipo_mov destino_origem solicitante
    chamado responsavel data_mov motivo_laudo validados []
  simp only [List.nil_append, List.length_nil] at hsnd
  have hrecs : appendedRecords ((processar_itens equip_ids mov_ids tipo_mov destino_origem
      solicitante chamado responsavel data_mov motivo_laudo validados []).1 ++
      if (processar_itens equip_ids mov_ids tipo_mov destino_origem solicitante chamado
          responsavel data_mov motivo_laudo validados []).2.isEmpty then []
      else [.appendRows (processar_itens equip_ids mov_ids tipo_mov destino_origem
        solicitante chamado responsavel data_mov motivo_laudo validados []).2]) =
      registros_do_lote mov_ids tipo_mov destino_origem solicitante chamado responsavel
        data_mov motivo_laudo validados 0 := by
    rw [appendedRecords_append, hfst.2.2.2.2, appendedRecords_tail_if, List.nil_append, hsnd]
  refine ⟨_, confirmar_movimentacao_ok equip_ids mov_ids tipo_mov details responsavel
    solicitante chamado destino_origem motivo_laudo data_mov validados hvc hvi, ?_, ?_, ?_⟩
  · rw [hrecs, registros_do_lote_length]
  · unfold countQtdUpdates
    rw [List.countP_append]
    have h1 := hfst.2.1
    unfold countQtdUpdates at h1
    rw [h1]
    have h2 := countQtdUpdates_tail_if (processar_itens equip_ids mov_ids tipo_mov
      destino_origem solicitante chamado responsavel data_mov motivo_laudo validados []).2
    unfold countQtdUpdates at h2
    rw [h2, Nat.add_zero]
  · intro p hp _
    rw [hrecs]
    exact registros_do_lote_fk mov_ids tipo_mov destino_origem solicitante chamado
      responsavel data_mov motivo_laudo validados 0 p hp

/-- C6 witness: a validated Entrada on an id absent from the equipment
table — no quantity update, yet one appended record for that id. -/
theorem item_sem_linha_ainda_registra_witness :
    ∃ ops, confirmar_movimentacao [9] ["4"] .entrada [(⟨5, "A", 1⟩, "2")] "Ana" "Bob" "c1"
        "Dep" "" "d" = .ok ops ∧
      (appendedRecords ops).length = 1 ∧
      countQtdUpdates ops = 0 ∧
      (∀ p ∈ [((⟨5, "A", 1⟩ : EquipItem), (2 : Int))],
        find_sheet_row_index_by_id [9] p.1.id = none →
        ∃ r ∈ appendedRecords ops, r.id_equipamento_fk = p.1.id) := by
  have h := item_sem_linha_ainda_registra [9] ["4"] .entrada [(⟨5, "A", 1⟩, "2")] "Ana"
    "Bob" "c1" "Dep" "" "d" [(⟨5, "A", 1⟩, 2)] (by rfl) (by rfl)
  simpa using h

/-- C6 counterexample: the validated single-item batch on an unresolvable
id writes no equipment update but does append one movement record, where
the claim requires the whole item operation (record included) to be
aborted. -/
theorem item_sem_linha_registro_escrito :
    find_sheet_row_index_by_id [9] 5 = none ∧
    ∃ ops, confirmar_movimentacao [9] ["4"] .entrada [(⟨5, "A", 1⟩, "2")] "Ana" "Bob" "c1"
        "Dep" "" "d" = .ok ops ∧
      countQtdUpdates ops = 0 ∧ countStatusUpdates ops = 0 ∧
      (appendedRecords ops).length = 1 ∧
      (appendedRecords ops).map (·.id_equipamento_fk) = [5] := by
  exact ⟨rfl, _, rfl, rfl, rfl, rfl, rfl⟩

/-- The derived-status invariant of the data model: a row is `Em Estoque`
exactly when its quantity is positive and it is not `Descartado`, and a
`Descartado` row has quantity 0. -/
def status_invariant (quantidade : Int) (status : String) : Prop :=
  (status = "Em Estoque" ↔ (0 < quantidade ∧ status ≠ "Descartado")) ∧
  (status = "Descartado" → quantidade = 0)

lemma status_invariant_em_fora (q : Int) :
    status_invariant q (if q > 0 then "Em Estoque" else "Fora de Estoque") := by
  unfold status_invariant
  by_cases h0 : 0 < q
  · rw [if_pos h0]
    exact ⟨⟨fun _ => ⟨h0, by decide⟩, fun _ => rfl⟩, fun h => absurd h (by decide)⟩
  · rw [if_neg h0]
    refine ⟨⟨fun h => absurd h (by decide), ?_⟩, fun h => absurd h (by decide)⟩
    rintro ⟨hq, _⟩
    exact absurd hq h0

/-- C3: every equipment row written by the add form, the edit form or the
movement reconciliation satisfies the derived-status invariant — `Em
Estoque` iff quantity positive and not `Descartado`, and `Descartado` only
with quantity 0 — where the reconciliation case assumes a non-negative
current quantity, a positive moved quantity, and for Saída the validated
bound `moved ≤ current`. -/
theorem status_derivado :
    (∀ equip_sheet_ids categoria nome serie descricao quantidade_str estoque_minimo_str
        data_cadastro row,
      adicionar_equipamento equip_sheet_ids categoria nome serie descricao quantidade_str
        estoque_minimo_str data_cadastro = .ok row →
      status_invariant row.quantidade row.status) ∧
    (∀ equip_df item_id nome categoria serie descricao quantidade_str estoque_minimo_str res,
      salvar_edicao equip_df item_id nome categoria serie descricao quantidade_str
        estoque_minimo_str = .ok res →
      status_invariant res.2.quantidade res.2.status) ∧
    (∀ (tipo_mov : MovType) (qtd_atual qtd_a_mover : Int),
      0 ≤ qtd_atual → 1 ≤ qtd_a_mover →
      (tipo_mov = .saida → qtd_a_mover ≤ qtd_atual) →
      status_invariant (nova_qtd_status tipo_mov qtd_atual qtd_a_mover).1
        (nova_qtd_status tipo_mov qtd_atual qtd_a_mover).2) := by
  refine ⟨?_, ?_, ?_⟩
  · intro equip_sheet_ids categoria nome serie descricao quantidade_str estoque_minimo_str
      data_cadastro row h
    revert h
    simp only [adicionar_equipamento]
    split
    · intro h; simp at h
    · cases hq : pyInt? quantidade_str with
      | none => intro h; simp at h
      | some quantidade =>
        cases he : pyInt? estoque_minimo_str with
        | none => intro h; simp at h
        | some estoque_minimo =>
          dsimp only []
          split
          · intro h; simp at h
          · intro h
            simp only [Except.ok.injEq] at h
            rw [← h]
            exact status_invariant_em_fora quantidade
  · intro equip_df item_id nome categoria serie descricao quantidade_str estoque_minimo_str
      res h
    revert h
    simp only [salvar_edicao]
    split
    · intro h; simp at h
    · cases hq : pyInt? quantidade_str with
      | none => intro h; simp at h
      | some quantidade =>
        cases he : pyInt? estoque_minimo_str with
        | none => intro h; simp at h
        | some estoque_minimo =>
          dsimp only []
          split
          · intro h; simp at h
          · cases hidx : equip_df.findIdx? fun r => r.id = item_id with
            | none => intro h; simp at h
            | some df_index =>
              cases hfind : equip_df.find? fun r => r.id = item_id with
              | none => intro h; simp at h
              | some original =>
                intro h
                simp only [Except.ok.injEq] at h
                rw [← h]
                exact status_invariant_em_fora quantidade
  · intro tipo_mov qtd_atual qtd_a_mover h0 h1 hsaida
    cases tipo_mov with
    | saida =>
      exact status_invariant_em_fora (qtd_atual - qtd_a_mover)
    | entrada =>
      have hpos : 0 < qtd_atual + qtd_a_mover := by omega
      have := status_invariant_em_fora (qtd_atual + qtd_a_mover)
      rw [if_pos hpos] at this
      exact this
    | descarte =>
      have hred : nova_qtd_status MovType.descarte qtd_atual qtd_a_mover =
          (0, "Descartado") := rfl
      rw [hred]
      unfold status_invariant
      exact ⟨⟨fun h => absurd h (by decide), fun hp => absurd rfl hp.2⟩, fun _ => rfl⟩

/-- C3 witness: concrete applications — an added row of quantity 2, an Out
that exhausts the stock, and a disposal. -/
theorem status_derivado_witness :
    status_invariant (2 : Int) "Em Estoque" ∧
    status_invariant (nova_qtd_status .saida 5 5).1 (nova_qtd_status .saida 5 5).2 ∧
    status_invariant (nova_qtd_status .descarte 5 3).1 (nova_qtd_status .descarte 5 3).2 :=
  ⟨status_derivado.1 [] "Periféricos" "Mouse" "" "" "2" "1" "d"
      ⟨1, "Mouse", "", "", 2, "Em Estoque", "d", 1, "Periféricos"⟩ rfl,
    status_derivado.2.2 .saida 5 5 (by decide) (by decide) (fun _ => by decide),
    status_derivado.2.2 .descarte 5 3 (by decide) (by decide) (fun h => by cases h)⟩

/-! ### Lemmas on the regularization transition -/

lemma setStatusRegularizadoAt_get? :
    ∀ (l : List SetorRow) (i n : Nat),
      (setStatusRegularizadoAt l i).get? n =
      if n = i then
        (l.get? n).map fun r => { r with status_regularizacao := "Regularizado" }
      else l.get? n := by
  intro l
  induction l with
  | nil => intro i n; cases i <;> cases n <;> simp [setStatusRegularizadoAt]
  | cons r rs ih =>
    intro i n
    cases i with
    | zero =>
      cases n with
      | zero => simp [setStatusRegularizadoAt]
      | succ n => simp [setStatusRegularizadoAt]
    | succ i =>
      cases n with
      | zero => simp [setStatusRegularizadoAt]
      | succ n => simpa [setStatusRegularizadoAt] using ih i n

lemma setStatusRegularizadoAt_map_id :
    ∀ (l : List SetorRow) (i : Nat),
      (setStatusRegularizadoAt l i).map (·.id) = l.map (·.id) := by
  intro l
  induction l with
  | nil => intro i; cases i <;> rfl
  | cons r rs ih =>
    intro i
    cases i with
    | zero => simp [setStatusRegularizadoAt]
    | succ i => simp [setStatusRegularizadoAt, ih i]

lemma apply_regularizado_updates_get? :
    ∀ (us : List Nat) (l : List SetorRow) (n : Nat),
      (apply_regularizado_updates l us).get? n =
      if ∃ u ∈ us, u - 2 = n then
        (l.get? n).map fun r => { r with status_regularizacao := "Regularizado" }
      else l.get? n := by
  intro us
  induction us with
  | nil => intro l n; simp [apply_regularizado_updates]
  | cons u us ih =>
    intro l n
    have step : apply_regularizado_updates l (u :: us) =
        apply_regularizado_updates (setStatusRegularizadoAt l (u - 2)) us := rfl
    rw [step, ih, setStatusRegularizadoAt_get?]
    by_cases h2 : n = u - 2
    · by_cases h1 : ∃ v ∈ us, v - 2 = n
      · rw [if_pos h1, if_pos h2, if_pos ⟨u, List.mem_cons_self u us, h2.symm⟩]
        cases l.get? n <;> simp
      · rw [if_neg h1, if_pos h2, if_pos ⟨u, List.mem_cons_self u us, h2.symm⟩]
    · by_cases h1 : ∃ v ∈ us, v - 2 = n
      · rw [if_pos h1, if_neg h2]
        obtain ⟨v, hv, he⟩ := h1
        rw [if_pos ⟨v, List.mem_cons_of_mem _ hv, he⟩]
      · rw [if_neg h1, if_neg h2, if_neg ?hcond]
        case hcond =>
          rintro ⟨v, hv, he⟩
          rcases List.mem_cons.mp hv with rfl | hv
          · exact h2 he.symm
          · exact h1 ⟨v, hv, he⟩

lemma apply_regularizado_updates_map_id :
    ∀ (us : List Nat) (l : List SetorRow),
      (apply_regularizado_updates l us).map (·.id) = l.map (·.id) := by
  intro us
  induction us with
  | nil => intro l; rfl
  | cons u us ih =>
    intro l
    have step : apply_regularizado_updates l (u :: us) =
        apply_regularizado_updates (setStatusRegularizadoAt l (u - 2)) us := rfl
    rw [step, ih, setStatusRegularizadoAt_map_id]

lemma df_index_of_get? :
    ∀ (ids : List Int) (record_id : Int) (n : Nat),
      df_index_of ids record_id = some n → ids.get? n = some record_id := by
  intro ids
  induction ids with
  | nil => intro i n h; simp [df_index_of] at h
  | cons x xs ih =>
    intro i n h
    simp only [df_index_of] at h
    by_cases hx : x = i
    · rw [if_pos hx] at h
      cases h
      simp [hx]
    · rw [if_neg hx] at h
      cases hm : df_index_of xs i with
      | none => rw [hm] at h; simp at h
      | some m =>
        rw [hm] at h
        simp only [Option.map_some'] at h
        cases h
        simpa using ih i m hm

lemma df_index_of_of_get? :
    ∀ (ids : List Int) (record_id : Int) (n : Nat), ids.Nodup →
      ids.get? n = some record_id → df_index_of ids record_id = some n := by
  intro ids
  induction ids with
  | nil => intro i n _ h; simp at h
  | cons x xs ih =>
    intro i n hnodup h
    cases n with
    | zero =>
      simp only [List.get?] at h
      cases h
      simp [df_index_of]
    | succ n =>
      simp only [List.get?] at h
      have hmem : i ∈ xs := List.get?_mem h
      have hx : x ≠ i := by
        intro hcontra
        exact (List.nodup_cons.mp hnodup).1 (hcontra ▸ hmem)
      simp [df_index_of, hx, ih i n (List.nodup_cons.mp hnodup).2 h]

lemma df_index_of_isSome_of_mem (ids : List Int) (record_id : Int)
    (h : record_id ∈ ids) : (df_index_of ids record_id).isSome := by
  induction ids with
  | nil => simp at h
  | cons x xs ih =>
    by_cases hx : x = record_id
    · simp [df_index_of, hx]
    · rcases List.mem_cons.mp h with rfl | hmem
      · exact absurd rfl hx
      · simp only [df_index_of, if_neg hx]
        have := ih hmem
        cases hdf : df_index_of xs record_id
        · rw [hdf] at this; simp at this
        · simp

lemma mem_updates_iff (rows : List SetorRow) (selected_ids : List Int) (n : Nat)
    (hnodup : (rows.map (·.id)).Nodup) :
    (∃ u ∈ selected_ids.filterMap fun mov_id =>
        find_sheet_row_index_by_id (rows.map (·.id)) mov_id, u - 2 = n) ↔
    (∃ r, rows.get? n = some r ∧ r.id ∈ selected_ids) := by
  constructor
  · rintro ⟨u, hu, hun⟩
    rw [List.mem_filterMap] at hu
    obtain ⟨i, hi, hfind⟩ := hu
    unfold find_sheet_row_index_by_id at hfind
    cases hm : df_index_of (rows.map (·.id)) i with
    | none => rw [hm] at hfind; simp at hfind
    | some m =>
      rw [hm] at hfind
      simp only [Option.map_some', Option.some.injEq] at hfind
      have hget := df_index_of_get? (rows.map (·.id)) i m hm
      have hmn : m = n := by omega
      rw [hmn] at hget
      rw [List.get?_map] at hget
      cases hr : rows.get? n with
      | none => rw [hr] at hget; simp at hget
      | some r =>
        rw [hr] at hget
        simp only [Option.map_some', Option.some.injEq] at hget
        exact ⟨r, rfl, hget ▸ hi⟩
  · rintro ⟨r, hr, hid⟩
    have hget : (rows.map (·.id)).get? n = some r.id := by
      rw [List.get?_map, hr]
      rfl
    have hidx := df_index_of_of_get? (rows.map (·.id)) r.id n hnodup hget
    refine ⟨n + 2, ?_, by omega⟩
    rw [List.mem_filterMap]
    exact ⟨r.id, hid, by simp [find_sheet_row_index_by_id, hidx]⟩

/-- The per-row effect of regularizing the selected ids, resolved against a
duplicate-free projection: selected rows get status `Regularizado`, the
others are untouched. -/
def regularizar_resultado (rows : List SetorRow) (selected_ids : List Int) : List SetorRow :=
  rows.map fun r =>
    if r.id ∈ selected_ids then { r with status_regularizacao := "Regularizado" } else r

lemma marcar_ok_eq (rows : List SetorRow) (selected_ids : List Int)
    (hnodup : (rows.map (·.id)).Nodup) (hne : selected_ids ≠ [])
    (hres : ∀ i ∈ selected_ids, i ∈ rows.map (·.id)) :
    marcar_como_regularizado rows selected_ids =
    .ok (regularizar_resultado rows selected_ids) := by
  have hupd : (selected_ids.filterMap fun mov_id =>
      find_sheet_row_index_by_id (rows.map (·.id)) mov_id) ≠ [] := by
    intro hcontra
    rcases selected_ids with _ | ⟨i, rest⟩
    · exact hne rfl
    · have hsome := df_index_of_isSome_of_mem (rows.map (·.id)) i
        (hres i (List.mem_cons_self _ _))
      rw [List.filterMap_eq_nil] at hcontra
      have := hcontra i (List.mem_cons_self _ _)
      unfold find_sheet_row_index_by_id at this
      cases hm : df_index_of (rows.map (·.id)) i <;> rw [hm] at this
      · rw [hm] at hsome; simp at hsome
      · simp at this
  unfold marcar_como_regularizado
  rw [if_neg (by simpa [List.isEmpty_iff] using hupd)]
  congr 1
  apply List.ext_get?
  intro n
  rw [apply_regularizado_updates_get?]
  unfold regularizar_resultado
  rw [List.get?_map]
  by_cases hmem : ∃ r, rows.get? n = some r ∧ r.id ∈ selected_ids
  · rw [if_pos ((mem_updates_iff rows selected_ids n hnodup).mpr hmem)]
    obtain ⟨r, hr, hid⟩ := hmem
    rw [hr]
    simp [hid]
  · rw [if_neg (fun hc => hmem ((mem_updates_iff rows selected_ids n hnodup).mp hc))]
    cases hr : rows.get? n with
    | none => rfl
    | some r =>
      have hnid : ¬ r.id ∈ selected_ids := fun hc => hmem ⟨r, hr, hc⟩
      simp [hnid]

lemma regularizar_resultado_map_id (rows : List SetorRow) (selected_ids : List Int) :
    (regularizar_resultado rows selected_ids).map (·.id) = rows.map (·.id) := by
  unfold regularizar_resultado
  rw [List.map_map]
  apply List.map_congr_left
  intro r _
  by_cases h : r.id ∈ selected_ids <;> simp [h]

lemma regularizar_resultado_idem (rows : List SetorRow) (selected_ids : List Int) :
    regularizar_resultado (regularizar_resultado rows selected_ids) selected_ids =
    regularizar_resultado rows selected_ids := by
  unfold regularizar_resultado
  rw [List.map_map]
  apply List.map_congr_left
  intro r _
  by_cases h : r.id ∈ selected_ids <;> simp [h]

/-- C9: regularization is idempotent on the sector-transfer state — for a
duplicate-free projection and a non-empty selection of resolvable ids, the
call succeeds, rows already `Regularizado` keep status `Regularizado`, a
row that changes at all was `Pendente`, and running the call a second time
on the resulting state returns that state unchanged. -/
theorem marcar_regularizado_idempotente (rows : List SetorRow) (selected_ids : List Int)
    (hnodup : (rows.map (·.id)).Nodup) (hne : selected_ids ≠ [])
    (hres : ∀ i ∈ selected_ids, i ∈ rows.map (·.id))
    (hst : ∀ r ∈ rows, r.status_regularizacao = "Pendente" ∨
      r.status_regularizacao = "Regularizado") :
    ∃ out, marcar_como_regularizado rows selected_ids = .ok out ∧
      (∀ n r r', rows.get? n = some r → out.get? n = some r' →
        (r.status_regularizacao = "Regularizado" →
          r'.status_regularizacao = "Regularizado") ∧
        (r' ≠ r → r.status_regularizacao = "Pendente")) ∧
      marcar_como_regularizado out selected_ids = .ok out := by
  refine ⟨regularizar_resultado rows selected_ids,
    marcar_ok_eq rows selected_ids hnodup hne hres, ?_, ?_⟩
  · intro n r r' hr hr'
    unfold regularizar_resultado at hr'
    rw [List.get?_map, hr] at hr'
    simp only [Option.map_some', Option.some.injEq] at hr'
    by_cases hid : r.id ∈ selected_ids
    · rw [if_pos hid] at hr'
      constructor
      · intro _
        rw [← hr']
      · intro hne'
        rcases hst r (List.get?_mem hr) with hp | hreg
        · exact hp
        · exfalso
          apply hne'
          rw [← hr']
          cases r
          simp only at hreg
          simp [hreg]
    · rw [if_neg hid] at hr'
      rw [← hr']
      exact ⟨fun h => h, fun hne' => absurd rfl hne'⟩
  · have h2 := marcar_ok_eq (regularizar_resultado rows selected_ids) selected_ids
      (by rw [regularizar_resultado_map_id]; exact hnodup) hne
      (by rw [regularizar_resultado_map_id]; exact hres)
    rw [h2, regularizar_resultado_idem]

/-- C9 witness: two rows, one `Pendente` and one already `Regularizado`,
both selected — the call succeeds, the `Regularizado` row is untouched, and
a second call is a no-op. -/
theorem marcar_regularizado_idempotente_witness :
    ∃ out, marcar_como_regularizado
        [⟨1, "d1", "R", "Monitor", "P", "S", "A", "B", "", "c", "s", "Pendente"⟩,
         ⟨2, "d2", "R", "Monitor", "P", "S", "A", "B", "", "c", "s", "Regularizado"⟩]
        [1, 2] = .ok out ∧
      (∀ n r r',
        ([⟨1, "d1", "R", "Monitor", "P", "S", "A", "B", "", "c", "s", "Pendente"⟩,
          ⟨2, "d2", "R", "Monitor", "P", "S", "A", "B", "", "c", "s", "Regularizado"⟩] :
          List SetorRow).get? n = some r → out.get? n = some r' →
        (r.status_regularizacao = "Regularizado" →
          r'.status_regularizacao = "Regularizado") ∧
        (r' ≠ r → r.status_regularizacao = "Pendente")) ∧
      marcar_como_regularizado out [1, 2] = .ok out :=
  marcar_regularizado_idempotente
    [⟨1, "d1", "R", "Monitor", "P", "S", "A", "B", "", "c", "s", "Pendente"⟩,
     ⟨2, "d2", "R", "Monitor", "P", "S", "A", "B", "", "c", "s", "Regularizado"⟩]
    [1, 2] (by decide) (by decide) (by decide) (by decide)

end GestorEstoque
